import Mathlib

/-
Verification development for the "Orça Interiores" furniture-quote system.

The definitions below are a shallow embedding of the two core modules:
  * file_analyzer.py (upload validation, OBJ parsing, dimension extraction,
    canned-template fallback), and
  * orcamento_engine.py (component typing, accessory rules, cutting costs,
    material/labor/assembly aggregation, profit margin),
together with the static tables of config.py that those modules read.

Modelling conventions:
  * Python floats are modelled as exact rationals (ℚ).  Python's round(x, n)
    uses round-half-to-even on the value; it is modelled by pyRound below.
    Non-finite float literals (inf/nan) have no counterpart in ℚ and are
    outside the model.
  * Python strings are modelled as Lean Strings; the handful of string
    operations the source uses (split, strip, startswith, lower, replace,
    "in") are reimplemented structurally on the character list so that the
    kernel can evaluate them on concrete inputs.
  * Python dicts holding components always carry the keys produced by the
    analyzer; they are modelled as the record Componente.  comp.get with a
    default is modelled by a total field (or an Option field plus getD for
    keys that some producers omit, such as tipo).
  * try/except blocks are modelled by Option-valued scans: a parse failure
    that would raise inside the protected region yields none, and the
    caller's except-branch value is substituted where the source catches it.
-/

/-! ## Python-style string primitives (structural, kernel-evaluable) -/

/-- Whitespace characters recognised by Python's str.split() / str.strip(). -/
def isPyWs (c : Char) : Bool :=
  c == ' ' || c == '\t' || c == '\n' || c == '\r' || c == '\x0b' || c == '\x0c'

/-- Splits a character list at every whitespace character (keeping empty chunks). -/
def splitWsAux : List Char → List Char → List (List Char)
  | [], acc => [acc.reverse]
  | c :: t, acc => if isPyWs c then acc.reverse :: splitWsAux t [] else splitWsAux t (c :: acc)

/-- Python str.split() with no argument: split on whitespace runs, dropping empties. -/
def pyWords (s : String) : List String :=
  ((splitWsAux s.data []).filter (fun w => ¬ w.isEmpty)).map String.mk

/-- Boolean list-prefix test. -/
def listPrefixEq : List Char → List Char → Bool
  | [], _ => true
  | _ :: _, [] => false
  | a :: as, b :: bs => a == b && listPrefixEq as bs

/-- Python str.startswith. -/
def pyStartsWith (s pre : String) : Bool := listPrefixEq pre.data s.data

/-- Fuel-bounded splitter on a non-empty pattern (non-overlapping, left to right). -/
def splitOnAux (pat : List Char) : ℕ → List Char → List Char → List (List Char)
  | 0, l, acc => [acc.reverse ++ l]
  | _ + 1, [], acc => [acc.reverse]
  | fuel + 1, c :: t, acc =>
    if listPrefixEq pat (c :: t) then
      acc.reverse :: splitOnAux pat fuel ((c :: t).drop pat.length) []
    else
      splitOnAux pat fuel t (c :: acc)

/-- Python str.split(sep) for a fixed non-empty separator. -/
def pySplitOn (s pat : String) : List String :=
  if pat.data.isEmpty then [s]
  else (splitOnAux pat.data (s.data.length + 1) s.data []).map String.mk

/-- Joins strings with a separator. -/
def joinSep (sep : String) : List String → String
  | [] => ""
  | [x] => x
  | x :: y :: t => x ++ sep ++ joinSep sep (y :: t)

/-- Python str.replace(old, new), all occurrences, case sensitive. -/
def pyReplace (s old new : String) : String := joinSep new (pySplitOn s old)

/-- Python "pat in s" substring test (for non-empty pat). -/
def pyContains (s pat : String) : Bool := (pySplitOn s pat).length != 1

/-- ASCII lower-casing of one character. -/
def lowerChar (c : Char) : Char :=
  if 'A' ≤ c ∧ c ≤ 'Z' then Char.ofNat (c.toNat + 32) else c

/-- ASCII upper-casing of one character. -/
def upperChar (c : Char) : Char :=
  if 'a' ≤ c ∧ c ≤ 'z' then Char.ofNat (c.toNat - 32) else c

/-- Python str.lower (ASCII fragment). -/
def pyLower (s : String) : String := String.mk (s.data.map lowerChar)

/-- Python str.strip(). -/
def pyStrip (s : String) : String :=
  String.mk (((s.data.dropWhile isPyWs).reverse.dropWhile isPyWs).reverse)

/-- Python str.capitalize(): first character upper-cased, the rest lower-cased. -/
def pyCapitalize (w : String) : String :=
  match w.data with
  | [] => ""
  | c :: t => String.mk (upperChar c :: t.map lowerChar)

/-- name.split('.')[-1].lower(): the (lower-cased) extension of a filename. -/
def pyExtension (name : String) : String := pyLower ((pySplitOn name ".").getLastD "")

/-! ## Numeric literal parsing (model of Python float()/int() on tokens) -/

/-- Value of a digit run. -/
def digitsToNat (l : List Char) : ℕ := l.foldl (fun a c => a * 10 + (c.toNat - 48)) 0

/-- Model of Python int(str) on a bare token: optional sign then digits. -/
def parseIntList (l : List Char) : Option ℤ :=
  match l with
  | '+' :: t => if ¬ t.isEmpty ∧ t.all Char.isDigit then some (digitsToNat t) else none
  | '-' :: t => if ¬ t.isEmpty ∧ t.all Char.isDigit then some (-(digitsToNat t : ℤ)) else none
  | t => if ¬ t.isEmpty ∧ t.all Char.isDigit then some (digitsToNat t) else none

/-- Python int(str). -/
def parsePyInt (s : String) : Option ℤ := parseIntList s.data

/-- Unsigned part of a float literal: digits, optional fraction, optional exponent. -/
def parseFloatMag (l : List Char) : Option ℚ :=
  let ip := l.takeWhile Char.isDigit
  let r1 := l.dropWhile Char.isDigit
  match r1 with
  | [] => if ip.isEmpty then none else some (digitsToNat ip : ℚ)
  | '.' :: r2 =>
    let fp := r2.takeWhile Char.isDigit
    let r3 := r2.dropWhile Char.isDigit
    if ip.isEmpty ∧ fp.isEmpty then none
    else
      let mant : ℚ := (digitsToNat ip : ℚ) + (digitsToNat fp : ℚ) / 10 ^ fp.length
      match r3 with
      | [] => some mant
      | c :: r4 =>
        if c = 'e' ∨ c = 'E' then (parseIntList r4).map (fun z => mant * 10 ^ z) else none
  | c :: r4 =>
    if (c = 'e' ∨ c = 'E') ∧ ¬ ip.isEmpty then
      (parseIntList r4).map (fun z => (digitsToNat ip : ℚ) * 10 ^ z)
    else none

/-- Model of Python float(str) on finite decimal/exponent literals. -/
def parsePyFloat (s : String) : Option ℚ :=
  match s.data with
  | '+' :: t => parseFloatMag t
  | '-' :: t => (parseFloatMag t).map Neg.neg
  | t => parseFloatMag t

/-! ## Python round(x, n): round half to even on the exact value -/

/-- Nearest integer, ties to even. -/
def roundHalfEven (q : ℚ) : ℤ :=
  let f := ⌊q⌋
  if q - f < 1 / 2 then f
  else if 1 / 2 < q - f then f + 1
  else if 2 ∣ f then f else f + 1

/-- Python round(x, n) for n ≥ 0, on the exact rational value. -/
def pyRound (x : ℚ) (n : ℕ) : ℚ := (roundHalfEven (x * 10 ^ n) : ℚ) / 10 ^ n

/-! ## config.py: static configuration read by the core -/

/-- Config.ALLOWED_EXTENSIONS. -/
def ALLOWED_EXTENSIONS : List String := ["obj", "dae", "stl", "ply"]

/-- Config.MAX_FILE_SIZE_MB. -/
def MAX_FILE_SIZE_MB : ℕ := 200

/-- One material row of Config.PRECOS_MATERIAIS. -/
structure Material where
  preco_m2 : ℚ
  desperdicio : ℚ
  descricao : String
deriving DecidableEq, Repr

/-- Config.PRECOS_MATERIAIS (insertion-ordered dict as an association list). -/
def PRECOS_MATERIAIS : List (String × Material) :=
  [("MDF 15mm", ⟨69.15, 0.10, "MDF Cru 15mm - Eucatex"⟩),
   ("MDF 18mm", ⟨78.50, 0.10, "MDF Cru 18mm - Eucatex"⟩),
   ("Compensado 15mm", ⟨64.00, 0.08, "Compensado Naval 15mm"⟩),
   ("Melamina 15mm", ⟨89.50, 0.12, "Melamina Branca 15mm"⟩),
   ("Melamina 18mm", ⟨98.75, 0.12, "Melamina Branca 18mm"⟩)]

/-- Config.CUSTOS_SERVICOS. -/
structure CustosServicos where
  corte_linear : ℚ
  furo_dobradica : ℚ
  taxa_minima_corte : ℚ
  mao_obra_m2 : ℚ
  montagem_m2 : ℚ
deriving DecidableEq, Repr

/-- Config.CUSTOS_SERVICOS values. -/
def CUSTOS_SERVICOS : CustosServicos := ⟨2.50, 1.50, 15.00, 120.00, 80.00⟩

/-- One accessory row of Config.ACESSORIOS. -/
structure Acessorio where
  preco : ℚ
  descricao : String
deriving DecidableEq, Repr

/-- Config.ACESSORIOS. -/
def ACESSORIOS : List (String × Acessorio) :=
  [("dobradica_comum", ⟨12.50, "Dobradiça comum 35mm"⟩),
   ("dobradica_premium", ⟨28.00, "Dobradiça Blum com amortecedor"⟩),
   ("puxador_comum", ⟨8.50, "Puxador alumínio 128mm"⟩),
   ("puxador_premium", ⟨25.00, "Puxador inox escovado 160mm"⟩),
   ("corredicao_comum", ⟨35.00, "Corrediça telescópica 45cm"⟩),
   ("corredicao_premium", ⟨85.00, "Corrediça Blum soft-close 50cm"⟩)]

/-- Python dict.get(k) on a string-keyed table. -/
def tabelaGet {α : Type} (tab : List (String × α)) (k : String) : Option α :=
  (tab.find? (fun kv => kv.1 == k)).map (fun kv => kv.2)

/-! ## file_analyzer.py: data model -/

/-- An uploaded file as the analyzer sees it: declared name, declared byte
size, and the text content obtained by uploaded_file.read().decode(
'utf-8', errors='ignore'). -/
structure UploadedFile where
  name : String
  size : ℕ
  content : String
deriving DecidableEq, Repr

/-- One parsed 3D vertex (a `v x y z` line). -/
structure Vertex where
  x : ℚ
  y : ℚ
  z : ℚ
deriving DecidableEq, Repr

/-- The dimension triple returned by calcular_dimensoes_vertices. -/
structure Dim where
  largura : ℚ
  altura : ℚ
  profundidade : ℚ
deriving DecidableEq, Repr

/-- A component dict as produced by the analyzer (keys nome/largura/altura/
profundidade, optionally vertices_count/faces_count; the engine additionally
reads an optional tipo key with comp.get('tipo', '')). -/
structure Componente where
  nome : String
  largura : ℚ
  altura : ℚ
  profundidade : ℚ
  tipo : Option String := none
  vertices_count : Option ℕ := none
  faces_count : Option ℕ := none
deriving DecidableEq, Repr

/-! ## file_analyzer.py: validation -/

/-- FileAnalyzer.validar_arquivo (src/file_analyzer.py:22-45).  The absent
file is the None case; extension, size ceiling and emptiness are checked in
source order.  The rejection messages are fixed strings in the source
(the extension message is assembled from ALLOWED_EXTENSIONS). -/
def validar_arquivo (uploaded_file : Option UploadedFile) : Bool × String :=
  match uploaded_file with
  | none => (false, "Nenhum arquivo enviado")
  | some f =>
    let file_extension := pyExtension f.name
    if file_extension ∉ ALLOWED_EXTENSIONS then
      (false, "Formato não suportado. Use: OBJ, DAE, STL, PLY")
    else if MAX_FILE_SIZE_MB * 1024 * 1024 < f.size then
      (false, "Arquivo muito grande. Máximo: 200MB")
    else if f.size = 0 then
      (false, "Arquivo está vazio")
    else
      (true, "Arquivo válido")

/-! ## file_analyzer.py: dimension extraction -/

/-- Componentwise minimum over v :: vs (np.min(vertices_array, axis=0)). -/
def bboxMin (v : Vertex) (vs : List Vertex) : Vertex :=
  vs.foldl (fun a w => ⟨min a.x w.x, min a.y w.y, min a.z w.z⟩) v

/-- Componentwise maximum over v :: vs (np.max(vertices_array, axis=0)). -/
def bboxMax (v : Vertex) (vs : List Vertex) : Vertex :=
  vs.foldl (fun a w => ⟨max a.x w.x, max a.y w.y, max a.z w.z⟩) v

/-- max_coords - min_coords, per axis. -/
def bboxExtents (v : Vertex) (vs : List Vertex) : Vertex :=
  ⟨(bboxMax v vs).x - (bboxMin v vs).x,
   (bboxMax v vs).y - (bboxMin v vs).y,
   (bboxMax v vs).z - (bboxMin v vs).z⟩

/-- FileAnalyzer.calcular_dimensoes_vertices (src/file_analyzer.py:110-141).
Empty input returns the fixed default dict; otherwise the axis extents are
floored (0.1/0.1/0.02), then, when the floored width exceeds 10, all three
floored values are divided by 1000, and the results are rounded to 3
decimals. -/
def calcular_dimensoes_vertices (vertices : List Vertex) : Dim :=
  match vertices with
  | [] => ⟨1.0, 2.0, 0.4⟩
  | v :: vs =>
    let e := bboxExtents v vs
    let largura := max |e.x| 0.1
    let altura := max |e.y| 0.1
    let profundidade := max |e.z| 0.02
    if 10 < largura then
      ⟨pyRound (largura / 1000) 3, pyRound (altura / 1000) 3, pyRound (profundidade / 1000) 3⟩
    else
      ⟨pyRound largura 3, pyRound altura 3, pyRound profundidade 3⟩

/-- Vertex indices referenced by one face record: for each token after 'f',
int(part.split('/')[0]) - 1; none models the ValueError that
int() raises on a malformed token (caught by calcular_dimensoes_grupo). -/
def indicesDaFace (face : String) : Option (List ℤ) :=
  ((pyWords face).drop 1).foldlM
    (fun acc part =>
      match parsePyInt ((pySplitOn part "/").headD "") with
      | none => none
      | some n => some (acc ++ [n - 1])) []

/-- FileAnalyzer.calcular_dimensoes_grupo (src/file_analyzer.py:143-166).
Collects the distinct in-range vertex indices used by the group's faces and
measures only those vertices; returns none when the index set is empty or a
face token fails to parse (the except-branch). -/
def calcular_dimensoes_grupo (vertices : List Vertex) (faces : List String) : Option Dim :=
  match faces.foldlM (fun acc f => (indicesDaFace f).map (fun l => acc ++ l)) ([] : List ℤ) with
  | none => none
  | some idxAll =>
    let usados :=
      ((idxAll.filter (fun i => decide (0 ≤ i) && decide (i < (vertices.length : ℤ)))).map
        Int.toNat).dedup
    if usados.isEmpty then none
    else some (calcular_dimensoes_vertices (usados.map (fun i => (vertices.get? i).getD ⟨0, 0, 0⟩)))

/-! ## file_analyzer.py: OBJ line scan -/

/-- Scanner state of the line loop in analisar_arquivo_obj: the flat vertex
list, the insertion-ordered dict of group name → raw face lines, and the
current group context. -/
structure EstadoObj where
  vertices : List Vertex
  grupos : List (String × List String)
  grupo_atual : String
deriving DecidableEq, Repr

/-- grupos[k] = [] when k is unseen (insertion at the end preserves dict order). -/
def gruposComGrupo (gs : List (String × List String)) (k : String) : List (String × List String) :=
  if gs.any (fun kv => kv.1 == k) then gs else gs ++ [(k, [])]

/-- grupos.setdefault(k, []).append(face). -/
def gruposAppendFace (gs : List (String × List String)) (k : String) (face : String) :
    List (String × List String) :=
  (gruposComGrupo gs k).map (fun kv => if kv.1 == k then (kv.1, kv.2 ++ [face]) else kv)

/-- One iteration of the line loop of analisar_arquivo_obj
(src/file_analyzer.py:57-76): strip, then dispatch on the `v `/`g `/`o `/
`f ` markers.  none models a float() ValueError on a vertex coordinate,
which escapes to the function's except-branch. -/
def lerLinhaObj (st : EstadoObj) (raw : String) : Option EstadoObj :=
  let line := pyStrip raw
  if pyStartsWith line "v " then
    let coords := ((pyWords line).drop 1).take 3
    if 3 ≤ coords.length then
      match coords with
      | [a, b, c] =>
        match parsePyFloat a, parsePyFloat b, parsePyFloat c with
        | some qa, some qb, some qc => some { st with vertices := st.vertices ++ [⟨qa, qb, qc⟩] }
        | _, _, _ => none
      | _ => some st
    else some st
  else if pyStartsWith line "g " || pyStartsWith line "o " then
    let parts := pyWords line
    let novo :=
      match parts.drop 1 with
      | p :: _ => p
      | [] => "unnamed"
    some { st with grupo_atual := novo, grupos := gruposComGrupo st.grupos novo }
  else if pyStartsWith line "f " then
    some { st with grupos := gruposAppendFace st.grupos st.grupo_atual line }
  else some st

/-- The full line scan, starting from the empty state with current group
"default". -/
def lerArquivoObj (linhas : List String) : Option EstadoObj :=
  linhas.foldlM lerLinhaObj ⟨[], [], "default"⟩

/-! ## file_analyzer.py: component naming -/

/-- The keyword-substitution table of limpar_nome_componente, in dict order. -/
def mapeamentoNomes : List (String × String) :=
  [("Default", "Painel Principal"), ("Cube", "Painel"), ("Box", "Caixa"),
   ("Panel", "Painel"), ("Door", "Porta"), ("Shelf", "Prateleira"),
   ("Side", "Lateral"), ("Back", "Fundo"), ("Top", "Tampo"), ("Bottom", "Base")]

/-- Characters kept by re.sub(r'[^a-zA-Z0-9\s_-]', '', nome). -/
def caractereValido (c : Char) : Bool :=
  c.isAlpha || c.isDigit || isPyWs c || c == '_' || c == '-'

/-- re.sub(r'^\d+\s*', '', nome): strip one leading digit run and following
whitespace. -/
def tiraDigitosIniciais (l : List Char) : List Char :=
  match l with
  | [] => []
  | c :: _ => if c.isDigit then (l.dropWhile Char.isDigit).dropWhile isPyWs else l

/-- FileAnalyzer.limpar_nome_componente (src/file_analyzer.py:168-205). -/
def limpar_nome_componente (nome : String) : String :=
  let n1 := String.mk (nome.data.filter caractereValido)
  let n2 := String.mk (n1.data.map (fun c => if c == '_' || c == '-' then ' ' else c))
  let n3 := String.mk (tiraDigitosIniciais n2.data)
  let n4 := joinSep " " ((pyWords n3).map pyCapitalize)
  let n5 := mapeamentoNomes.foldl
    (fun s par => if pyContains (pyLower s) (pyLower par.1) then pyReplace s par.1 par.2 else s) n4
  if pyStrip n5 = "" then "Componente" else n5

/-- FileAnalyzer.sugerir_nome_por_dimensoes (src/file_analyzer.py:236-261). -/
def sugerir_nome_por_dimensoes (d : Dim) : String :=
  if 2.0 < d.altura ∧ 0.8 < d.largura then "Armário Alto"
  else if d.altura < 1.0 ∧ 1.0 < d.largura then "Armário Baixo"
  else if d.profundidade < 0.1 ∧ d.largura < d.altura then "Porta"
  else if d.profundidade < 0.1 ∧ d.altura < d.largura then "Prateleira"
  else if d.largura < d.altura ∧ d.profundidade < d.altura then "Painel Lateral"
  else if 1.5 < d.largura ∧ 0.5 < d.profundidade then "Bancada"
  else "Painel"

/-- One step of the comment scan of gerar_nome_por_arquivo: a `#` line whose
stripped tail is longer than 3 characters yields a cleaned name. -/
def comentarioUtil (l : String) : Option String :=
  if pyStartsWith l "#" then
    let comment := pyStrip (String.mk (l.data.drop 1))
    if 3 < comment.data.length then some (limpar_nome_componente comment) else none
  else none

/-- The vertex re-scan of gerar_nome_por_arquivo (raw lines, no strip);
none models a float() ValueError caught by that function's except-branch. -/
def verticesDasLinhas (linhas : List String) : Option (List Vertex) :=
  linhas.foldlM
    (fun acc l =>
      if pyStartsWith l "v " then
        let coords := ((pyWords l).drop 1).take 3
        if 3 ≤ coords.length then
          match coords with
          | [a, b, c] =>
            match parsePyFloat a, parsePyFloat b, parsePyFloat c with
            | some qa, some qb, some qc => some (acc ++ [(⟨qa, qb, qc⟩ : Vertex)])
            | _, _, _ => none
          | _ => some acc
        else some acc
      else some acc) []

/-- FileAnalyzer.gerar_nome_por_arquivo (src/file_analyzer.py:207-234). -/
def gerar_nome_por_arquivo (file_content : String) : String :=
  let linhas := pySplitOn file_content "\n"
  match (linhas.take 10).findSome? comentarioUtil with
  | some nome => nome
  | none =>
    match verticesDasLinhas linhas with
    | none => "Componente"
    | some vertices =>
      if ¬ vertices.isEmpty then sugerir_nome_por_dimensoes (calcular_dimensoes_vertices vertices)
      else "Móvel Personalizado"

/-! ## file_analyzer.py: canned-template fallback -/

/-- The kitchen template list. -/
def simuladosCozinha : List Componente :=
  [⟨"Armário Superior Esquerdo", 0.8, 0.7, 0.35, none, none, none⟩,
   ⟨"Armário Superior Direito", 1.2, 0.7, 0.35, none, none, none⟩,
   ⟨"Armário Inferior Esquerdo", 0.8, 0.85, 0.6, none, none, none⟩,
   ⟨"Armário Inferior Direito", 1.2, 0.85, 0.6, none, none, none⟩,
   ⟨"Bancada", 2.0, 0.04, 0.6, none, none, none⟩]

/-- The bedroom/closet template list. -/
def simuladosQuarto : List Componente :=
  [⟨"Lateral Esquerda", 0.02, 2.2, 0.6, none, none, none⟩,
   ⟨"Lateral Direita", 0.02, 2.2, 0.6, none, none, none⟩,
   ⟨"Prateleira Superior", 1.8, 0.02, 0.6, none, none, none⟩,
   ⟨"Prateleira Central", 1.8, 0.02, 0.6, none, none, none⟩,
   ⟨"Cabideiro", 1.8, 0.05, 0.6, none, none, none⟩,
   ⟨"Porta Esquerda", 0.9, 2.2, 0.02, none, none, none⟩,
   ⟨"Porta Direita", 0.9, 2.2, 0.02, none, none, none⟩]

/-- The bathroom template list. -/
def simuladosBanheiro : List Componente :=
  [⟨"Gabinete Pia", 0.8, 0.6, 0.45, none, none, none⟩,
   ⟨"Espelheira", 0.8, 0.6, 0.15, none, none, none⟩,
   ⟨"Prateleiras Laterais", 0.3, 1.8, 0.25, none, none, none⟩]

/-- The generic template list. -/
def simuladosGenerico : List Componente :=
  [⟨"Lateral Esquerda", 0.02, 2.1, 0.4, none, none, none⟩,
   ⟨"Lateral Direita", 0.02, 2.1, 0.4, none, none, none⟩,
   ⟨"Prateleira Superior", 1.2, 0.02, 0.4, none, none, none⟩,
   ⟨"Prateleira Central", 1.2, 0.02, 0.4, none, none, none⟩,
   ⟨"Prateleira Inferior", 1.2, 0.02, 0.4, none, none, none⟩,
   ⟨"Fundo", 1.2, 2.1, 0.02, none, none, none⟩,
   ⟨"Porta", 0.6, 2.1, 0.02, none, none, none⟩]

/-- FileAnalyzer.gerar_componentes_simulados (src/file_analyzer.py:263-311).
The source ignores its file_content argument and keys the choice on the
uploaded file's name read from the Streamlit session state (falling back to
'projeto' when unset — app.py never sets it); the session filename is passed
explicitly here. -/
def gerar_componentes_simulados (session_filename : String) : List Componente :=
  let filename_lower := pyLower session_filename
  if ["cozinha", "kitchen"].any (fun p => pyContains filename_lower p) then simuladosCozinha
  else if ["quarto", "bedroom", "closet"].any (fun p => pyContains filename_lower p) then
    simuladosQuarto
  else if ["banheiro", "bathroom"].any (fun p => pyContains filename_lower p) then
    simuladosBanheiro
  else simuladosGenerico

/-! ## file_analyzer.py: OBJ analysis and the top-level entry point -/

/-- FileAnalyzer.analisar_arquivo_obj (src/file_analyzer.py:47-108).  A
vertex-coordinate parse failure (the only exception that reaches this
function's except-branch) degrades to gerar_componentes_simulados. -/
def analisar_arquivo_obj (file_content : String) (session_filename : String) : List Componente :=
  let linhas := pySplitOn file_content "\n"
  match lerArquivoObj linhas with
  | none => gerar_componentes_simulados session_filename
  | some st =>
    let componentes := st.grupos.foldl
      (fun acc par =>
        if !par.2.isEmpty && !st.vertices.isEmpty then
          match calcular_dimensoes_grupo st.vertices par.2 with
          | some d =>
            acc ++ [⟨limpar_nome_componente par.1, d.largura, d.altura, d.profundidade,
                     none, some st.vertices.length, some par.2.length⟩]
          | none => acc
        else acc) []
    if componentes.isEmpty && !st.vertices.isEmpty then
      let d := calcular_dimensoes_vertices st.vertices
      [⟨gerar_nome_por_arquivo file_content, d.largura, d.altura, d.profundidade,
        none, some st.vertices.length,
        some ((linhas.filter (fun l => pyStartsWith l "f ")).length)⟩]
    else componentes

/-- The validity filter of analisar_arquivo: all three dimensions strictly
positive. -/
def compValido (c : Componente) : Bool :=
  decide (0 < c.largura) && decide (0 < c.altura) && decide (0 < c.profundidade)

/-- The component-list selection of analisar_arquivo
(src/file_analyzer.py:324-334): obj content goes to the OBJ parser, any
other accepted extension to the canned fallback, and an empty result
re-falls back to the canned templates. -/
def componentesDaAnalise (session_filename : String) (f : UploadedFile) : List Componente :=
  let file_content := f.content
  let file_extension := pyExtension f.name
  let componentes :=
    if file_extension = "obj" then analisar_arquivo_obj file_content session_filename
    else gerar_componentes_simulados session_filename
  if componentes.isEmpty then gerar_componentes_simulados session_filename else componentes

/-- FileAnalyzer.analisar_arquivo (src/file_analyzer.py:313-352).  Validates,
selects the component list (componentesDaAnalise), filters out non-positive
components, and fails only when the filtered list is empty. -/
def analisar_arquivo (session_filename : String) (uploaded_file : Option UploadedFile) :
    Bool × List Componente × String :=
  let v := validar_arquivo uploaded_file
  if v.1 = false then (false, [], v.2)
  else
    match uploaded_file with
    | none => (false, [], v.2)
    | some f =>
      let componentes_validos := (componentesDaAnalise session_filename f).filter compValido
      if componentes_validos.isEmpty then
        (false, [], "Não foi possível extrair componentes válidos do arquivo")
      else
        (true, componentes_validos,
         "Análise concluída: " ++ toString componentes_validos.length ++ " componentes encontrados")

/-! ## orcamento_engine.py: per-component calculations -/

/-- OrcamentoEngine.calcular_area_componente (src/orcamento_engine.py:24-42):
front face plus, when depth is positive, the two side faces; rounded to 4
decimal places. -/
def calcular_area_componente (largura altura : ℚ) (profundidade : ℚ) : ℚ :=
  let area_principal := largura * altura
  let area_total :=
    if 0 < profundidade then area_principal + 2 * (altura * profundidade) else area_principal
  pyRound area_total 4

/-- comp.get('tipo', ''): the engine reads the optional tipo key with an
empty-string default. -/
def tipoGet (c : Componente) : String := c.tipo.getD ""

/-- OrcamentoEngine.detectar_tipo_componente (src/orcamento_engine.py:44-69).
The source passes the component dict itself as the dimension dict. -/
def detectar_tipo_componente (nome : String) (dimensoes : Componente) : String :=
  let nome_lower := pyLower nome
  if ["porta", "door"].any (fun p => pyContains nome_lower p) then "porta"
  else if ["prateleira", "shelf"].any (fun p => pyContains nome_lower p) then "prateleira"
  else if ["lateral", "side"].any (fun p => pyContains nome_lower p) then "lateral"
  else if ["fundo", "back"].any (fun p => pyContains nome_lower p) then "fundo"
  else if ["tampo", "top", "bancada"].any (fun p => pyContains nome_lower p) then "tampo"
  else if ["gaveta", "drawer"].any (fun p => pyContains nome_lower p) then "gaveta"
  else if dimensoes.largura < dimensoes.altura ∧ dimensoes.profundidade < dimensoes.altura then
    "lateral"
  else if dimensoes.altura < dimensoes.largura ∧ dimensoes.profundidade < 0.1 then "prateleira"
  else "painel"

/-- One accessory entry of the dict built by calcular_acessorios_componente. -/
structure ItemAcessorio where
  quantidade : ℕ
  preco_unitario : ℚ
  descricao : String
deriving DecidableEq, Repr

/-- OrcamentoEngine.calcular_acessorios_componente
(src/orcamento_engine.py:71-120).  In the source a missing accessory key
raises KeyError inside the try, the partially built dict is discarded and
the except-branch returns {}; the simultaneous match models exactly that. -/
def calcular_acessorios_componente (tipo : String) (dimensoes : Componente) (qualidade : String) :
    List (String × ItemAcessorio) :=
  if tipo = "porta" then
    let altura := dimensoes.altura
    let num_dobradicas : ℕ := if 1.5 < altura then 3 else 2
    let dobradica_tipo := "dobradica_" ++ qualidade
    let puxador_tipo := "puxador_" ++ qualidade
    match tabelaGet ACESSORIOS dobradica_tipo, tabelaGet ACESSORIOS puxador_tipo with
    | some dob, some pux =>
      [(dobradica_tipo, ⟨num_dobradicas, dob.preco, dob.descricao⟩),
       (puxador_tipo, ⟨1, pux.preco, pux.descricao⟩)]
    | _, _ => []
  else if tipo = "gaveta" then
    let corredicao_tipo := "corredicao_" ++ qualidade
    let puxador_tipo := "puxador_" ++ qualidade
    match tabelaGet ACESSORIOS corredicao_tipo, tabelaGet ACESSORIOS puxador_tipo with
    | some cor, some pux =>
      [(corredicao_tipo, ⟨2, cor.preco, cor.descricao⟩),
       (puxador_tipo, ⟨1, pux.preco, pux.descricao⟩)]
    | _, _ => []
  else []

/-! ## orcamento_engine.py: cutting costs -/

/-- One entry of the detalhes list built by calcular_custo_corte. -/
structure DetalheCorte where
  componente : String
  corte_linear : ℚ
  furos : ℚ
deriving DecidableEq, Repr

/-- The pair returned by calcular_custo_corte. -/
structure ResultadoCorte where
  custo_total : ℚ
  detalhes : List DetalheCorte
deriving DecidableEq, Repr

/-- The loop body of calcular_custo_corte (src/orcamento_engine.py:128-154):
accumulates the running total and appends one detalhes entry. -/
def passoCorte (acc : ℚ × List DetalheCorte) (comp : Componente) : ℚ × List DetalheCorte :=
  let largura := comp.largura
  let altura := comp.altura
  let perimetro := 2 * (largura + altura)
  let custo_corte_linear := perimetro * CUSTOS_SERVICOS.corte_linear
  let ct := acc.1 + custo_corte_linear
  if tipoGet comp = "porta" then
    let custo_furos := 6 * CUSTOS_SERVICOS.furo_dobradica
    (ct + custo_furos, acc.2 ++ [⟨comp.nome, custo_corte_linear, custo_furos⟩])
  else
    (ct, acc.2 ++ [⟨comp.nome, custo_corte_linear, 0⟩])

/-- OrcamentoEngine.calcular_custo_corte (src/orcamento_engine.py:122-167):
per-component linear-cut cost plus a 6-hole drilling charge for tipo ==
'porta', with the aggregate floored at taxa_minima_corte × count and rounded
to 2 decimals. -/
def calcular_custo_corte (componentes : List Componente) : ResultadoCorte :=
  let r := componentes.foldl passoCorte (0, [])
  let piso := CUSTOS_SERVICOS.taxa_minima_corte * (componentes.length : ℚ)
  let custo_total := if r.1 < piso then piso else r.1
  ⟨pyRound custo_total 2, r.2⟩

/-! ## orcamento_engine.py: the complete quote -/

/-- The configuration dict read by gerar_orcamento_completo, with the
source's .get defaults. -/
structure Configuracoes where
  material : String := "MDF 15mm"
  qualidade_acessorios : String := "comum"
  margem_lucro : ℚ := 30
  incluir_montagem : Bool := true
deriving DecidableEq, Repr

/-- self.precos_materiais.get(material, self.precos_materiais['MDF 15mm']). -/
def info_material (m : String) : Material :=
  (tabelaGet PRECOS_MATERIAIS m).getD ((tabelaGet PRECOS_MATERIAIS "MDF 15mm").getD ⟨0, 0, ""⟩)

/-- The detected type of a component inside the quote loop
(src/orcamento_engine.py:199). -/
def tipoDetectado (c : Componente) : String := detectar_tipo_componente c.nome c

/-- The per-component area inside the quote loop (src/orcamento_engine.py:192-196). -/
def areaDoComponente (c : Componente) : ℚ :=
  calcular_area_componente c.largura c.altura c.profundidade

/-- The per-component accessory dict inside the quote loop
(src/orcamento_engine.py:205-207). -/
def acessoriosDoComponente (qualidade : String) (c : Componente) : List (String × ItemAcessorio) :=
  calcular_acessorios_componente (tipoDetectado c) c qualidade

/-- The per-component accessory cost (src/orcamento_engine.py:209-212),
before rounding. -/
def custoAcessoriosComp (qualidade : String) (c : Componente) : ℚ :=
  ((acessoriosDoComponente qualidade c).map
    (fun it => (it.2.quantidade : ℚ) * it.2.preco_unitario)).sum

/-- The per-component material cost (src/orcamento_engine.py:202), before
rounding. -/
def custoMaterialComp (preco_m2 desperdicio : ℚ) (c : Componente) : ℚ :=
  areaDoComponente c * preco_m2 * (1 + desperdicio)

/-- One entry of componentes_processados (src/orcamento_engine.py:220-233). -/
structure ComponenteProcessado where
  nome : String
  tipo : String
  dimensoes : Dim
  area : ℚ
  custo_material : ℚ
  acessorios : List (String × ItemAcessorio)
  custo_acessorios : ℚ
  custo_total_componente : ℚ
deriving DecidableEq, Repr

/-- Builds one componentes_processados entry; the dict totals accumulate the
unrounded costs, rounding is applied only at dict construction. -/
def processar_componente (preco_m2 desperdicio : ℚ) (qualidade : String) (c : Componente) :
    ComponenteProcessado :=
  let area_comp := areaDoComponente c
  let tipo := tipoDetectado c
  let custo_material_comp := custoMaterialComp preco_m2 desperdicio c
  let acessorios_comp := acessoriosDoComponente qualidade c
  let custo_acessorios_comp := custoAcessoriosComp qualidade c
  ⟨c.nome, tipo, ⟨c.largura, c.altura, c.profundidade⟩, area_comp,
   pyRound custo_material_comp 2, acessorios_comp, pyRound custo_acessorios_comp 2,
   pyRound (custo_material_comp + custo_acessorios_comp) 2⟩

/-- area_total accumulated by the quote loop. -/
def area_totalOf (comps : List Componente) : ℚ := (comps.map areaDoComponente).sum

/-- custo_material_total accumulated by the quote loop. -/
def custo_material_totalOf (comps : List Componente) (cfg : Configuracoes) : ℚ :=
  (comps.map
    (custoMaterialComp (info_material cfg.material).preco_m2
      (info_material cfg.material).desperdicio)).sum

/-- custo_acessorios_total accumulated by the quote loop. -/
def custo_acessorios_totalOf (comps : List Componente) (cfg : Configuracoes) : ℚ :=
  (comps.map (custoAcessoriosComp cfg.qualidade_acessorios)).sum

/-- custo_mao_obra = area_total * mao_obra_m2 (src/orcamento_engine.py:237). -/
def custo_mao_obraOf (comps : List Componente) : ℚ :=
  area_totalOf comps * CUSTOS_SERVICOS.mao_obra_m2

/-- custo_montagem = area_total * montagem_m2 if incluir_montagem else 0
(src/orcamento_engine.py:238). -/
def custo_montagemOf (comps : List Componente) (cfg : Configuracoes) : ℚ :=
  if cfg.incluir_montagem then area_totalOf comps * CUSTOS_SERVICOS.montagem_m2 else 0

/-- subtotal = material + accessories + cutting + labor + assembly
(src/orcamento_engine.py:241-242). -/
def subtotalOf (comps : List Componente) (cfg : Configuracoes) : ℚ :=
  custo_material_totalOf comps cfg + custo_acessorios_totalOf comps cfg +
    (calcular_custo_corte comps).custo_total + custo_mao_obraOf comps +
    custo_montagemOf comps cfg

/-- resumo['material']. -/
structure ResumoMaterial where
  tipo : String
  preco_m2 : ℚ
  desperdicio_percent : ℚ
  custo_total : ℚ
deriving DecidableEq, Repr

/-- resumo['acessorios']. -/
structure ResumoAcessorios where
  qualidade : String
  custo_total : ℚ
deriving DecidableEq, Repr

/-- resumo['servicos']. -/
structure ResumoServicos where
  corte_usinagem : ℚ
  mao_obra : ℚ
  montagem : ℚ
deriving DecidableEq, Repr

/-- resumo['financeiro']. -/
structure ResumoFinanceiro where
  subtotal : ℚ
  margem_lucro_percent : ℚ
  valor_margem : ℚ
  total_final : ℚ
deriving DecidableEq, Repr

/-- The resumo dict (src/orcamento_engine.py:249-272). -/
structure Resumo where
  area_total : ℚ
  material : ResumoMaterial
  acessorios : ResumoAcessorios
  servicos : ResumoServicos
  financeiro : ResumoFinanceiro
deriving DecidableEq, Repr

/-- The quote dict (src/orcamento_engine.py:275-283).  data_geracao (a wall
clock read) and observacoes (presentational formatted strings derived from
resumo) are environmental/presentational and not modelled. -/
structure Orcamento where
  configuracoes : Configuracoes
  componentes : List ComponenteProcessado
  custos_corte_detalhes : List DetalheCorte
  resumo : Resumo
  validade_dias : ℕ
deriving DecidableEq, Repr

/-- OrcamentoEngine.gerar_orcamento_completo (src/orcamento_engine.py:169-290).
Note the source computes custos_corte over the raw input componentes (line
236), not over the processed entries carrying the detected types. -/
def gerar_orcamento_completo (componentes : List Componente) (configuracoes : Configuracoes) :
    Orcamento :=
  let material := configuracoes.material
  let qualidade_acessorios := configuracoes.qualidade_acessorios
  let margem_lucro := configuracoes.margem_lucro / 100
  let incluir_montagem := configuracoes.incluir_montagem
  let info := info_material material
  let preco_m2 := info.preco_m2
  let desperdicio := info.desperdicio
  let componentes_processados :=
    componentes.map (processar_componente preco_m2 desperdicio qualidade_acessorios)
  let area_total := area_totalOf componentes
  let custo_material_total := custo_material_totalOf componentes configuracoes
  let custo_acessorios_total := custo_acessorios_totalOf componentes configuracoes
  let custos_corte := calcular_custo_corte componentes
  let custo_mao_obra := custo_mao_obraOf componentes
  let custo_montagem := custo_montagemOf componentes configuracoes
  let subtotal := custo_material_total + custo_acessorios_total + custos_corte.custo_total +
    custo_mao_obra + custo_montagem
  let valor_margem := subtotal * margem_lucro
  let total_final := subtotal + valor_margem
  { configuracoes := configuracoes,
    componentes := componentes_processados,
    custos_corte_detalhes := custos_corte.detalhes,
    resumo :=
      { area_total := pyRound area_total 2,
        material := ⟨material, preco_m2, desperdicio * 100, pyRound custo_material_total 2⟩,
        acessorios := ⟨qualidade_acessorios, pyRound custo_acessorios_total 2⟩,
        servicos := ⟨pyRound custos_corte.custo_total 2, pyRound custo_mao_obra 2,
          if incluir_montagem then pyRound custo_montagem 2 else 0⟩,
        financeiro := ⟨pyRound subtotal 2, margem_lucro * 100, pyRound valor_margem 2,
          pyRound total_final 2⟩ },
    validade_dias := 30 }

/-- The effect of gerar_orcamento_completo on the caller's component list.
The embedded region (src/orcamento_engine.py:169-290 and the helpers it
calls) reads the component dicts only through comp.get and contains no
assignment into them, so the list the caller holds after the call is the
input list itself. -/
def gerar_orcamento_completo_effect (componentes : List Componente)
    (configuracoes : Configuracoes) : Orcamento × List Componente :=
  (gerar_orcamento_completo componentes configuracoes, componentes)

/-! ## Derived per-component cutting quantities (for stating properties of
calcular_custo_corte) -/

/-- The linear-cut cost of one component: perimeter × corte_linear. -/
def corteLinearComp (c : Componente) : ℚ :=
  2 * (c.largura + c.altura) * CUSTOS_SERVICOS.corte_linear

/-- The drilling charge of one component: 6 holes × furo_dobradica for
tipo == 'porta', otherwise nothing. -/
def furosComp (c : Componente) : ℚ :=
  if tipoGet c = "porta" then 6 * CUSTOS_SERVICOS.furo_dobradica else 0

/-- The detalhes entry calcular_custo_corte emits for one component. -/
def detalheDe (c : Componente) : DetalheCorte := ⟨c.nome, corteLinearComp c, furosComp c⟩

/-- The summed per-component cutting cost before the aggregate floor. -/
def custoCorteBruto (comps : List Componente) : ℚ :=
  (comps.map (fun c => corteLinearComp c + furosComp c)).sum

/-! # Theorems

General lemmas about the rounding model, then the fold/sum structure of the
cutting aggregate, then the per-claim results. -/

/-- roundHalfEven never returns less than the floor. -/
theorem roundHalfEven_ge_floor (q : ℚ) : ⌊q⌋ ≤ roundHalfEven q := by
  simp only [roundHalfEven]
  split_ifs <;> omega

/-- roundHalfEven is the identity on integers. -/
theorem roundHalfEven_intCast (z : ℤ) : roundHalfEven (z : ℚ) = z := by
  simp only [roundHalfEven, Int.floor_intCast, sub_self]
  norm_num

/-- Any integer below q is below roundHalfEven q. -/
theorem le_roundHalfEven_of_le (z : ℤ) (q : ℚ) (h : (z : ℚ) ≤ q) : z ≤ roundHalfEven q :=
  le_trans (Int.le_floor.mpr h) (roundHalfEven_ge_floor q)

/-- roundHalfEven differs from its argument by at most 1/2. -/
theorem abs_roundHalfEven_sub (q : ℚ) : |(roundHalfEven q : ℚ) - q| ≤ 1 / 2 := by
  have hfl : (⌊q⌋ : ℚ) ≤ q := Int.floor_le q
  have hfu : q < (⌊q⌋ : ℚ) + 1 := Int.lt_floor_add_one q
  simp only [roundHalfEven]
  split_ifs with h1 h2 h3 <;> rw [abs_le] <;> constructor <;> push_cast <;> linarith

/-- pyRound is the identity on rationals that are exact at n decimals. -/
theorem pyRound_eq_of_int (x : ℚ) (n : ℕ) (z : ℤ) (h : x * 10 ^ n = (z : ℚ)) :
    pyRound x n = x := by
  have h10 : (10 : ℚ) ^ n ≠ 0 := by positivity
  simp only [pyRound, h, roundHalfEven_intCast]
  rw [← h]
  field_simp

/-- Evaluation of pyRound when the scaled value sits in [z, z + 1/2). -/
theorem pyRound_eq_down (x : ℚ) (n : ℕ) (z : ℤ) (h1 : (z : ℚ) ≤ x * 10 ^ n)
    (h2 : x * 10 ^ n < (z : ℚ) + 1 / 2) : pyRound x n = (z : ℚ) / 10 ^ n := by
  have hf : ⌊x * 10 ^ n⌋ = z := by
    apply Int.floor_eq_iff.mpr
    exact ⟨h1, by linarith⟩
  simp only [pyRound, roundHalfEven, hf]
  rw [if_pos (by linarith)]

/-- Lower bounds at exact n-decimal values pass through pyRound. -/
theorem le_pyRound_of_le (z : ℤ) (n : ℕ) (x : ℚ) (h : (z : ℚ) ≤ x * 10 ^ n) :
    (z : ℚ) / 10 ^ n ≤ pyRound x n := by
  have h10 : (0 : ℚ) < 10 ^ n := by positivity
  have hz : (z : ℚ) ≤ (roundHalfEven (x * 10 ^ n) : ℚ) :=
    Int.cast_le.mpr (le_roundHalfEven_of_le z _ h)
  exact (div_le_div_iff_of_pos_right h10).mpr hz

/-- pyRound moves its argument by at most half an ulp. -/
theorem abs_pyRound_sub (x : ℚ) (n : ℕ) : |pyRound x n - x| ≤ 1 / (2 * 10 ^ n) := by
  have h10 : (0 : ℚ) < 10 ^ n := by positivity
  have key : pyRound x n - x = ((roundHalfEven (x * 10 ^ n) : ℚ) - x * 10 ^ n) / 10 ^ n := by
    simp only [pyRound]
    field_simp
    ring
  rw [key, abs_div, abs_of_pos h10, ← div_div]
  gcongr
  exact abs_roundHalfEven_sub (x * 10 ^ n)

/-! ## Structure of the cutting-cost fold -/

/-- One loop step adds the component's linear-cut cost plus its drilling
charge to the running total. -/
theorem passoCorte_fst (acc : ℚ × List DetalheCorte) (c : Componente) :
    (passoCorte acc c).1 = acc.1 + (corteLinearComp c + furosComp c) := by
  simp only [passoCorte, corteLinearComp, furosComp]
  split_ifs <;> ring

/-- One loop step appends exactly the component's detalhes entry. -/
theorem passoCorte_snd (acc : ℚ × List DetalheCorte) (c : Componente) :
    (passoCorte acc c).2 = acc.2 ++ [detalheDe c] := by
  simp only [passoCorte, detalheDe, corteLinearComp, furosComp]
  split_ifs with h <;> simp [h]

/-- The fold total is the initial total plus the summed raw cutting cost. -/
theorem corte_foldl_fst (comps : List Componente) (acc : ℚ × List DetalheCorte) :
    (comps.foldl passoCorte acc).1 = acc.1 + custoCorteBruto comps := by
  induction comps generalizing acc with
  | nil => simp [custoCorteBruto]
  | cons c t ih =>
    simp only [List.foldl_cons, ih, passoCorte_fst, custoCorteBruto, List.map_cons, List.sum_cons]
    ring

/-- The fold detail list is the initial list followed by one entry per
component, in order. -/
theorem corte_foldl_snd (comps : List Componente) (acc : ℚ × List DetalheCorte) :
    (comps.foldl passoCorte acc).2 = acc.2 ++ comps.map detalheDe := by
  induction comps generalizing acc with
  | nil => simp
  | cons c t ih =>
    simp only [List.foldl_cons, ih, passoCorte_snd, List.map_cons]
    simp

/-- The detalhes list of calcular_custo_corte, entry by entry. -/
theorem calcular_custo_corte_detalhes (comps : List Componente) :
    (calcular_custo_corte comps).detalhes = comps.map detalheDe := by
  simp only [calcular_custo_corte, corte_foldl_snd]
  simp

/-- The custo_total of calcular_custo_corte: the raw sum under the per-piece
floor, rounded to 2 decimals. -/
theorem calcular_custo_corte_total (comps : List Componente) :
    (calcular_custo_corte comps).custo_total =
      pyRound
        (if custoCorteBruto comps < CUSTOS_SERVICOS.taxa_minima_corte * (comps.length : ℚ) then
          CUSTOS_SERVICOS.taxa_minima_corte * (comps.length : ℚ)
        else custoCorteBruto comps) 2 := by
  simp only [calcular_custo_corte, corte_foldl_fst, zero_add]

/-- The configured minimum cutting fee is 15.00. -/
theorem taxa_minima_corte_val : CUSTOS_SERVICOS.taxa_minima_corte = 15 := by
  norm_num [CUSTOS_SERVICOS]

/-- The configured per-hole drilling rate is 1.50. -/
theorem furo_dobradica_val : CUSTOS_SERVICOS.furo_dobradica = 3 / 2 := by
  norm_num [CUSTOS_SERVICOS]

/-! ## The canned fallback lists: non-empty, all dimensions positive -/

/-- Every kitchen-template component passes the validity filter. -/
theorem simuladosCozinha_all : simuladosCozinha.all compValido = true := by
  simp [simuladosCozinha, compValido]
  norm_num

/-- Every bedroom-template component passes the validity filter. -/
theorem simuladosQuarto_all : simuladosQuarto.all compValido = true := by
  simp [simuladosQuarto, compValido]
  norm_num

/-- Every bathroom-template component passes the validity filter. -/
theorem simuladosBanheiro_all : simuladosBanheiro.all compValido = true := by
  simp [simuladosBanheiro, compValido]
  norm_num

/-- Every generic-template component passes the validity filter. -/
theorem simuladosGenerico_all : simuladosGenerico.all compValido = true := by
  simp [simuladosGenerico, compValido]
  norm_num

/-- The fallback always yields one of the four fixed template lists. -/
theorem gerar_componentes_simulados_cases (fn : String) :
    gerar_componentes_simulados fn = simuladosCozinha ∨
    gerar_componentes_simulados fn = simuladosQuarto ∨
    gerar_componentes_simulados fn = simuladosBanheiro ∨
    gerar_componentes_simulados fn = simuladosGenerico := by
  simp only [gerar_componentes_simulados]
  split_ifs <;> tauto

/-- Every fallback component passes the validity filter. -/
theorem gerar_componentes_simulados_all (fn : String) :
    (gerar_componentes_simulados fn).all compValido = true := by
  rcases gerar_componentes_simulados_cases fn with h | h | h | h <;> rw [h]
  · exact simuladosCozinha_all
  · exact simuladosQuarto_all
  · exact simuladosBanheiro_all
  · exact simuladosGenerico_all

/-- The fallback list is never empty. -/
theorem gerar_componentes_simulados_ne_nil (fn : String) :
    (gerar_componentes_simulados fn).isEmpty = false := by
  rcases gerar_componentes_simulados_cases fn with h | h | h | h <;> rw [h] <;> rfl

/-- compValido unpacked. -/
theorem compValido_iff (c : Componente) :
    compValido c = true ↔ 0 < c.largura ∧ 0 < c.altura ∧ 0 < c.profundidade := by
  simp [compValido]
  tauto

/-! ## Claim C3: drilling charges in the cutting aggregate -/

/-- C3: calcular_custo_corte emits, for every component, a detalhes entry
whose linear-cut part is the perimeter times the per-meter rate and whose
drilling part is exactly 6 holes times the per-hole rate when the
component's tipo is 'porta', and zero drilling otherwise. -/
theorem corte_furos_porta (componentes : List Componente) :
    (calcular_custo_corte componentes).detalhes =
      componentes.map (fun c =>
        ⟨c.nome, 2 * (c.largura + c.altura) * CUSTOS_SERVICOS.corte_linear,
         if tipoGet c = "porta" then 6 * CUSTOS_SERVICOS.furo_dobradica else 0⟩) := by
  rw [calcular_custo_corte_detalhes]
  rfl

/-! ## Claim C5: the aggregate minimum-fee floor -/

/-- C5: for a non-empty component list the cutting aggregate is at least
15 × count, and whenever the raw per-component sum is below that floor the
returned total is exactly the floor (the whole total is replaced, not
raised per piece). -/
theorem corte_piso_minimo (componentes : List Componente) (h : componentes ≠ []) :
    15 * (componentes.length : ℚ) ≤ (calcular_custo_corte componentes).custo_total ∧
      (custoCorteBruto componentes < 15 * (componentes.length : ℚ) →
        (calcular_custo_corte componentes).custo_total = 15 * (componentes.length : ℚ)) := by
  have hcast : (15 : ℚ) * (componentes.length : ℚ) * 10 ^ 2 =
      ((1500 * componentes.length : ℤ) : ℚ) := by push_cast; ring
  rw [calcular_custo_corte_total, taxa_minima_corte_val]
  constructor
  · split_ifs with hlt
    · rw [pyRound_eq_of_int _ _ (1500 * componentes.length) hcast]
    · have hle : (15 : ℚ) * (componentes.length : ℚ) ≤ custoCorteBruto componentes := not_lt.mp hlt
      have := le_pyRound_of_le (1500 * componentes.length) 2 (custoCorteBruto componentes)
        (by rw [← hcast]; nlinarith)
      calc (15 : ℚ) * (componentes.length : ℚ)
          = ((1500 * componentes.length : ℤ) : ℚ) / 10 ^ 2 := by push_cast; ring
        _ ≤ _ := this
  · intro hlt
    rw [if_pos hlt]
    exact pyRound_eq_of_int _ _ (1500 * componentes.length) hcast

/-- Witness for C5 at a concrete one-component list. -/
theorem corte_piso_minimo_witness :
    ([(⟨"Painel", 1, 2, 0, none, none, none⟩ : Componente)] ≠ []) ∧
      (15 * (([(⟨"Painel", 1, 2, 0, none, none, none⟩ : Componente)].length : ℚ)) ≤
        (calcular_custo_corte [⟨"Painel", 1, 2, 0, none, none, none⟩]).custo_total ∧
        (custoCorteBruto [⟨"Painel", 1, 2, 0, none, none, none⟩] <
            15 * (([(⟨"Painel", 1, 2, 0, none, none, none⟩ : Componente)].length : ℚ)) →
          (calcular_custo_corte [⟨"Painel", 1, 2, 0, none, none, none⟩]).custo_total =
            15 * (([(⟨"Painel", 1, 2, 0, none, none, none⟩ : Componente)].length : ℚ)))) :=
  ⟨by simp, corte_piso_minimo [⟨"Painel", 1, 2, 0, none, none, none⟩] (by simp)⟩

/-! ## Claim C6: subtotal composition and profit margin -/

/-- C6: for any margin fraction m in (0,1] the quote's subtotal is the sum
material + accessories + cutting + labor + assembly, and its final total is
that subtotal plus subtotal × m (both reported after the 2-decimal
presentation rounding; the underlying aggregation is exact). -/
theorem orcamento_margem (componentes : List Componente) (configuracoes : Configuracoes)
    (h1 : 0 < configuracoes.margem_lucro / 100) (h2 : configuracoes.margem_lucro / 100 ≤ 1) :
    subtotalOf componentes configuracoes =
      custo_material_totalOf componentes configuracoes +
        custo_acessorios_totalOf componentes configuracoes +
        (calcular_custo_corte componentes).custo_total +
        custo_mao_obraOf componentes + custo_montagemOf componentes configuracoes ∧
    (gerar_orcamento_completo componentes configuracoes).resumo.financeiro.subtotal =
      pyRound (subtotalOf componentes configuracoes) 2 ∧
    (gerar_orcamento_completo componentes configuracoes).resumo.financeiro.total_final =
      pyRound (subtotalOf componentes configuracoes +
        subtotalOf componentes configuracoes * (configuracoes.margem_lucro / 100)) 2 :=
  ⟨rfl, rfl, rfl⟩

/-- Witness for C6 at a concrete component and the default configuration. -/
theorem orcamento_margem_witness :
    (0 < (⟨"MDF 15mm", "comum", 30, true⟩ : Configuracoes).margem_lucro / 100) ∧
    ((⟨"MDF 15mm", "comum", 30, true⟩ : Configuracoes).margem_lucro / 100 ≤ 1) ∧
    ((gerar_orcamento_completo [⟨"Painel", 1, 2, 0, none, none, none⟩]
        ⟨"MDF 15mm", "comum", 30, true⟩).resumo.financeiro.total_final =
      pyRound (subtotalOf [⟨"Painel", 1, 2, 0, none, none, none⟩] ⟨"MDF 15mm", "comum", 30, true⟩ +
        subtotalOf [⟨"Painel", 1, 2, 0, none, none, none⟩] ⟨"MDF 15mm", "comum", 30, true⟩ *
          ((⟨"MDF 15mm", "comum", 30, true⟩ : Configuracoes).margem_lucro / 100)) 2) :=
  ⟨by norm_num, by norm_num,
    (orcamento_margem [⟨"Painel", 1, 2, 0, none, none, none⟩] ⟨"MDF 15mm", "comum", 30, true⟩
      (by norm_num) (by norm_num)).2.2⟩

/-! ## Claim C7: accessory rules for doors -/

/-- C7: for a door component under a valid accessory tier, the accessory
quantities are [hinges, handle] with hinge count 2 or 3 — exactly 3 when
height exceeds 1.5 — and exactly one handle; component types other than
door and drawer receive no accessories. -/
theorem acessorios_porta (dimensoes : Componente) (qualidade : String)
    (hq : qualidade = "comum" ∨ qualidade = "premium") :
    ((calcular_acessorios_componente "porta" dimensoes qualidade).map
      (fun e => e.2.quantidade)) = [if (1.5 : ℚ) < dimensoes.altura then 3 else 2, 1] ∧
    ((if (1.5 : ℚ) < dimensoes.altura then (3 : ℕ) else 2) = 2 ∨
      (if (1.5 : ℚ) < dimensoes.altura then (3 : ℕ) else 2) = 3) ∧
    ((if (1.5 : ℚ) < dimensoes.altura then (3 : ℕ) else 2) = 3 ↔
      (1.5 : ℚ) < dimensoes.altura) ∧
    (∀ tipo : String, tipo ≠ "porta" → tipo ≠ "gaveta" →
      calcular_acessorios_componente tipo dimensoes qualidade = []) := by
  refine ⟨?_, ?_, ?_, ?_⟩
  · rcases hq with rfl | rfl <;> rfl
  · by_cases h : (1.5 : ℚ) < dimensoes.altura <;> simp [h]
  · by_cases h : (1.5 : ℚ) < dimensoes.altura <;> simp [h]
  · intro tipo hp hg
    simp only [calcular_acessorios_componente]
    rw [if_neg hp, if_neg hg]

/-- Witness for C7 at a concrete tall door and the standard tier. -/
theorem acessorios_porta_witness :
    (("comum" : String) = "comum" ∨ ("comum" : String) = "premium") ∧
    ((calcular_acessorios_componente "porta" ⟨"Porta", 0.6, 2.2, 0.02, none, none, none⟩
        "comum").map (fun e => e.2.quantidade)) =
      [if (1.5 : ℚ) < (⟨"Porta", 0.6, 2.2, 0.02, none, none, none⟩ : Componente).altura then 3
       else 2, 1] :=
  ⟨Or.inl rfl,
    (acessorios_porta ⟨"Porta", 0.6, 2.2, 0.02, none, none, none⟩ "comum" (Or.inl rfl)).1⟩

/-! ## Claim C10: estimation does not disturb its input -/

/-- C10: the engine's effect on the caller's component list is the identity
(the embedded body only reads the component dicts), and every per-component
entry of the quote is a freshly built record whose name and dimension values
are read from the corresponding input component. -/
theorem orcamento_preserva_entrada (componentes : List Componente)
    (configuracoes : Configuracoes) :
    (gerar_orcamento_completo_effect componentes configuracoes).2 = componentes ∧
    ((gerar_orcamento_completo componentes configuracoes).componentes).map
        (fun p => p.dimensoes) =
      componentes.map (fun c => (⟨c.largura, c.altura, c.profundidade⟩ : Dim)) ∧
    ((gerar_orcamento_completo componentes configuracoes).componentes).map (fun p => p.nome) =
      componentes.map (fun c => c.nome) := by
  refine ⟨rfl, ?_, ?_⟩ <;>
    simp [gerar_orcamento_completo, processar_componente, List.map_map, Function.comp]

/-! ## Claim C9: the validation gate -/

/-- C9: validar_arquivo rejects exactly the absent file, an extension
outside {obj, dae, stl, ply} (case-insensitive via lower-casing), a declared
size above 200 MiB, and a zero declared size; everything else is accepted. -/
theorem validar_arquivo_spec (uploaded_file : Option UploadedFile) :
    (validar_arquivo uploaded_file).1 = false ↔
      (uploaded_file = none ∨ ∃ f, uploaded_file = some f ∧
        (pyExtension f.name ∉ ALLOWED_EXTENSIONS ∨ 200 * 1024 * 1024 < f.size ∨ f.size = 0)) := by
  cases uploaded_file with
  | none => simp [validar_arquivo]
  | some f =>
    simp only [validar_arquivo, MAX_FILE_SIZE_MB]
    split_ifs with h1 h2 h3 <;> simp_all

/-! ## Claim C8: the area lower bound fails under 4-decimal rounding -/

/-- C8 counterexample: the valid component with width 0.0001, height 0.1,
depth 0.0001 gets area 0 from calcular_area_componente (0.00003 rounds to 0
at 4 decimals), so the claimed bounds area ≥ width×height and area > 0 both
fail. -/
theorem area_piso_cex :
    calcular_area_componente 0.0001 0.1 0.0001 = 0 ∧ (0 : ℚ) < (0.0001 : ℚ) * 0.1 := by
  constructor
  · simp only [calcular_area_componente]
    rw [if_pos (by norm_num)]
    have h := pyRound_eq_down (0.0001 * 0.1 + 2 * (0.1 * 0.0001)) 4 0 (by norm_num) (by norm_num)
    rw [h]
    norm_num
  · norm_num

/-- C8 amended: for a valid component the pre-rounding area
width×height + 2×(height×depth) strictly exceeds width×height and is
positive; the returned area is that value rounded to 4 decimals, hence
within 1/20000 of it — so it may fall below width×height (and even reach 0),
but never by more than 1/20000. -/
theorem area_amended (largura altura profundidade : ℚ) (h1 : 0 < largura) (h2 : 0 < altura)
    (h3 : 0 < profundidade) :
    largura * altura < largura * altura + 2 * (altura * profundidade) ∧
    0 < largura * altura + 2 * (altura * profundidade) ∧
    calcular_area_componente largura altura profundidade =
      pyRound (largura * altura + 2 * (altura * profundidade)) 4 ∧
    largura * altura - 1 / 20000 ≤ calcular_area_componente largura altura profundidade := by
  have key : calcular_area_componente largura altura profundidade =
      pyRound (largura * altura + 2 * (altura * profundidade)) 4 := by
    simp only [calcular_area_componente]
    rw [if_pos h3]
  refine ⟨by nlinarith, by nlinarith, key, ?_⟩
  have hb := abs_pyRound_sub (largura * altura + 2 * (altura * profundidade)) 4
  rw [abs_le] at hb
  have hb1 := hb.1
  rw [key]
  have hval : (1 : ℚ) / (2 * 10 ^ 4) = 1 / 20000 := by norm_num
  rw [hval] at hb1
  nlinarith

/-- Witness for the amended C8 at a concrete component. -/
theorem area_amended_witness :
    ((0 : ℚ) < 1 ∧ (0 : ℚ) < 2 ∧ (0 : ℚ) < 0.5) ∧
    ((1 : ℚ) * 2 < 1 * 2 + 2 * (2 * 0.5) ∧
      (0 : ℚ) < 1 * 2 + 2 * (2 * 0.5) ∧
      calcular_area_componente 1 2 0.5 = pyRound ((1 : ℚ) * 2 + 2 * (2 * 0.5)) 4 ∧
      (1 : ℚ) * 2 - 1 / 20000 ≤ calcular_area_componente 1 2 0.5) :=
  ⟨⟨by norm_num, by norm_num, by norm_num⟩,
    area_amended 1 2 0.5 (by norm_num) (by norm_num) (by norm_num)⟩

/-! ## Claim C2: the millimeter heuristic -/

/-- C2 counterexample: with vertices (0,0,0) and (1,15,1) the y-extent is 15
(> 10 units), yet no dimension is divided by 1000 — the returned dict is
(1, 15, 1), because the source only tests the width.  Under the claim, all
three extents would have been divided by 1000 (and then floored to
(0.1, 0.1, 0.02)). -/
theorem dimensoes_mm_cex :
    calcular_dimensoes_vertices [⟨0, 0, 0⟩, ⟨1, 15, 1⟩] = ⟨1, 15, 1⟩ ∧ (10 : ℚ) < 15 := by
  have he : bboxExtents ⟨0, 0, 0⟩ [⟨1, 15, 1⟩] = ⟨1, 15, 1⟩ := by
    simp [bboxExtents, bboxMin, bboxMax]
  constructor
  · simp only [calcular_dimensoes_vertices, he]
    rw [if_neg (by norm_num)]
    have p1 : pyRound (max |(1 : ℚ)| 0.1) 3 = 1 := by
      rw [show max |(1 : ℚ)| 0.1 = 1 by norm_num]
      exact pyRound_eq_of_int 1 3 1000 (by norm_num)
    have p2 : pyRound (max |(15 : ℚ)| 0.1) 3 = 15 := by
      rw [show max |(15 : ℚ)| 0.1 = 15 by norm_num]
      exact pyRound_eq_of_int 15 3 15000 (by norm_num)
    have p3 : pyRound (max |(1 : ℚ)| 0.02) 3 = 1 := by
      rw [show max |(1 : ℚ)| 0.02 = 1 by norm_num]
      exact pyRound_eq_of_int 1 3 1000 (by norm_num)
    rw [p1, p2, p3]
  · norm_num

/-- C2 amended: even when another axis extent exceeds 10 units, the
millimeter division is decided solely by the floored width: when that width
is at most 10 nothing is divided, and when it exceeds 10 all three
already-floored extents are divided by 1000 — the minimum floors are applied
before the division, not after. -/
theorem dimensoes_mm_amended (v : Vertex) (vs : List Vertex)
    (hy : 10 < |(bboxExtents v vs).y|) :
    (max |(bboxExtents v vs).x| 0.1 ≤ 10 →
      calcular_dimensoes_vertices (v :: vs) =
        ⟨pyRound (max |(bboxExtents v vs).x| 0.1) 3,
         pyRound (max |(bboxExtents v vs).y| 0.1) 3,
         pyRound (max |(bboxExtents v vs).z| 0.02) 3⟩) ∧
    (10 < max |(bboxExtents v vs).x| 0.1 →
      calcular_dimensoes_vertices (v :: vs) =
        ⟨pyRound (max |(bboxExtents v vs).x| 0.1 / 1000) 3,
         pyRound (max |(bboxExtents v vs).y| 0.1 / 1000) 3,
         pyRound (max |(bboxExtents v vs).z| 0.02 / 1000) 3⟩) := by
  constructor <;> intro h <;> simp only [calcular_dimensoes_vertices]
  · rw [if_neg (not_lt.mpr h)]
  · rw [if_pos h]

/-- Witness for the amended C2 at the counterexample vertex pair. -/
theorem dimensoes_mm_amended_witness :
    (10 < |(bboxExtents ⟨0, 0, 0⟩ [⟨1, 15, 1⟩]).y|) ∧
    (max |(bboxExtents ⟨0, 0, 0⟩ [⟨1, 15, 1⟩]).x| 0.1 ≤ 10 →
      calcular_dimensoes_vertices [⟨0, 0, 0⟩, ⟨1, 15, 1⟩] =
        ⟨pyRound (max |(bboxExtents ⟨0, 0, 0⟩ [⟨1, 15, 1⟩]).x| 0.1) 3,
         pyRound (max |(bboxExtents ⟨0, 0, 0⟩ [⟨1, 15, 1⟩]).y| 0.1) 3,
         pyRound (max |(bboxExtents ⟨0, 0, 0⟩ [⟨1, 15, 1⟩]).z| 0.02) 3⟩) :=
  have hy : 10 < |(bboxExtents ⟨0, 0, 0⟩ [⟨1, 15, 1⟩]).y| := by
    have he : bboxExtents ⟨0, 0, 0⟩ [⟨1, 15, 1⟩] = ⟨1, 15, 1⟩ := by
      simp [bboxExtents, bboxMin, bboxMax]
    rw [he]
    norm_num
  ⟨hy, (dimensoes_mm_amended ⟨0, 0, 0⟩ [⟨1, 15, 1⟩] hy).1⟩

/-! ## Claim C4: the minimum-dimension floors -/

/-- C4 counterexample: with a filename matching no category keyword the
fallback path emits, as its first component, a side panel of width 0.02 m,
which is below the claimed width floor of 0.1 m. -/
theorem pisos_dimensao_cex :
    ((gerar_componentes_simulados "projeto").map (fun c => c.largura)).head? =
      some 0.02 ∧ (0.02 : ℚ) < 0.1 := by
  constructor
  · have h : gerar_componentes_simulados "projeto" = simuladosGenerico := by
      simp only [gerar_componentes_simulados]
      rw [if_neg (by decide), if_neg (by decide), if_neg (by decide)]
    rw [h]
    rfl
  · norm_num

/-- C4 amended: the floors width/height ≥ 0.1 and depth ≥ 0.02 hold for
every vertex-derived dimension dict whenever the millimeter division is not
triggered (floored width ≤ 10), and for the empty-vertex default; fallback
template components are only guaranteed to have strictly positive
dimensions.  (When the millimeter division fires, the floors are applied
before the division and the results can end far below them — see the C2
results.) -/
theorem pisos_dimensao_amended :
    (∀ v : Vertex, ∀ vs : List Vertex, max |(bboxExtents v vs).x| 0.1 ≤ 10 →
      0.1 ≤ (calcular_dimensoes_vertices (v :: vs)).largura ∧
      0.1 ≤ (calcular_dimensoes_vertices (v :: vs)).altura ∧
      0.02 ≤ (calcular_dimensoes_vertices (v :: vs)).profundidade) ∧
    calcular_dimensoes_vertices [] = ⟨1.0, 2.0, 0.4⟩ ∧
    (∀ fn : String, ∀ c ∈ gerar_componentes_simulados fn,
      0 < c.largura ∧ 0 < c.altura ∧ 0 < c.profundidade) := by
  refine ⟨?_, rfl, ?_⟩
  · intro v vs h
    simp only [calcular_dimensoes_vertices]
    rw [if_neg (not_lt.mpr h)]
    refine ⟨?_, ?_, ?_⟩
    · have hle : (100 : ℚ) ≤ max |(bboxExtents v vs).x| 0.1 * 10 ^ 3 := by
        have := le_max_right |(bboxExtents v vs).x| 0.1
        nlinarith
      have := le_pyRound_of_le 100 3 (max |(bboxExtents v vs).x| 0.1) (by push_cast; linarith)
      calc (0.1 : ℚ) = (100 : ℚ) / 10 ^ 3 := by norm_num
        _ ≤ _ := this
    · have hle : (100 : ℚ) ≤ max |(bboxExtents v vs).y| 0.1 * 10 ^ 3 := by
        have := le_max_right |(bboxExtents v vs).y| 0.1
        nlinarith
      have := le_pyRound_of_le 100 3 (max |(bboxExtents v vs).y| 0.1) (by push_cast; linarith)
      calc (0.1 : ℚ) = (100 : ℚ) / 10 ^ 3 := by norm_num
        _ ≤ _ := this
    · have hle : (20 : ℚ) ≤ max |(bboxExtents v vs).z| 0.02 * 10 ^ 3 := by
        have := le_max_right |(bboxExtents v vs).z| 0.02
        nlinarith
      have := le_pyRound_of_le 20 3 (max |(bboxExtents v vs).z| 0.02) (by push_cast; linarith)
      calc (0.02 : ℚ) = (20 : ℚ) / 10 ^ 3 := by norm_num
        _ ≤ _ := this
  · intro fn c hc
    have hall := gerar_componentes_simulados_all fn
    rw [List.all_eq_true] at hall
    exact (compValido_iff c).mp (hall c hc)

/-- Witness for the amended C4: a vertex pair with small extents, and the
first generic fallback component. -/
theorem pisos_dimensao_amended_witness :
    (max |(bboxExtents ⟨0, 0, 0⟩ [⟨1, 2, 0.5⟩]).x| 0.1 ≤ 10 ∧
      0.1 ≤ (calcular_dimensoes_vertices [⟨0, 0, 0⟩, ⟨1, 2, 0.5⟩]).largura ∧
      0.1 ≤ (calcular_dimensoes_vertices [⟨0, 0, 0⟩, ⟨1, 2, 0.5⟩]).altura ∧
      0.02 ≤ (calcular_dimensoes_vertices [⟨0, 0, 0⟩, ⟨1, 2, 0.5⟩]).profundidade) ∧
    ((⟨"Lateral Esquerda", 0.02, 2.1, 0.4, none, none, none⟩ : Componente) ∈
        gerar_componentes_simulados "projeto" ∧
      0 < (⟨"Lateral Esquerda", 0.02, 2.1, 0.4, none, none, none⟩ : Componente).largura ∧
      0 < (⟨"Lateral Esquerda", 0.02, 2.1, 0.4, none, none, none⟩ : Componente).altura ∧
      0 < (⟨"Lateral Esquerda", 0.02, 2.1, 0.4, none, none, none⟩ : Componente).profundidade) := by
  have hx : max |(bboxExtents ⟨0, 0, 0⟩ [⟨1, 2, 0.5⟩]).x| 0.1 ≤ 10 := by
    have he : bboxExtents ⟨0, 0, 0⟩ [⟨1, 2, 0.5⟩] = ⟨1, 2, 0.5⟩ := by
      simp [bboxExtents, bboxMin, bboxMax]
      norm_num
    rw [he]
    norm_num
  have hmem : (⟨"Lateral Esquerda", 0.02, 2.1, 0.4, none, none, none⟩ : Componente) ∈
      gerar_componentes_simulados "projeto" := by
    have h : gerar_componentes_simulados "projeto" = simuladosGenerico := by
      simp only [gerar_componentes_simulados]
      rw [if_neg (by decide), if_neg (by decide), if_neg (by decide)]
    rw [h, simuladosGenerico]
    exact List.mem_cons_self _ _
  exact ⟨⟨hx, pisos_dimensao_amended.1 ⟨0, 0, 0⟩ [⟨1, 2, 0.5⟩] hx⟩,
    hmem, pisos_dimensao_amended.2.2 "projeto" _ hmem⟩

/-! ## Claim C1: graceful degradation of the analysis entry point -/

/-- C1 amended, part of the supporting development is below.  The analysis
guarantees: (a) whenever it reports ok = true the component list is
non-empty and every component has strictly positive dimensions; (b) for
every validated file whose extension is not obj the canned fallback makes
the result ok = true.  The original claim fails for obj files whose parsed
components all end with a zero dimension (possible through the millimeter
division followed by 3-decimal rounding): no re-fallback happens there and
the empty-component failure is returned, see the counterexample. -/
theorem analise_graceful_amended :
    (∀ sfn : String, ∀ fo : Option UploadedFile, ∀ ok : Bool, ∀ comps : List Componente,
      ∀ msg : String, analisar_arquivo sfn fo = (ok, comps, msg) → ok = true →
        comps ≠ [] ∧ ∀ c ∈ comps, 0 < c.largura ∧ 0 < c.altura ∧ 0 < c.profundidade) ∧
    (∀ sfn : String, ∀ f : UploadedFile, pyExtension f.name ≠ "obj" →
      (validar_arquivo (some f)).1 = true → (analisar_arquivo sfn (some f)).1 = true) := by
  constructor
  · intro sfn fo ok comps msg heq hok
    subst hok
    simp only [analisar_arquivo] at heq
    by_cases hv : (validar_arquivo fo).1 = false
    · rw [if_pos hv] at heq
      simp at heq
    · rw [if_neg hv] at heq
      cases fo with
      | none => simp [validar_arquivo] at hv
      | some f =>
        dsimp only at heq
        by_cases he : ((componentesDaAnalise sfn f).filter compValido).isEmpty = true
        · rw [if_pos he] at heq
          simp at heq
        · rw [if_neg he] at heq
          simp only [Prod.mk.injEq] at heq
          obtain ⟨-, hcomps, -⟩ := heq
          rw [← hcomps]
          constructor
          · intro hnil
            rw [hnil] at he
            exact he rfl
          · intro c hc
            exact (compValido_iff c).mp (List.mem_filter.mp hc).2
  · intro sfn f hext hval
    simp only [analisar_arquivo]
    rw [if_neg (by rw [hval]; simp)]
    have hcomp : componentesDaAnalise sfn f = gerar_componentes_simulados sfn := by
      simp only [componentesDaAnalise]
      rw [if_neg hext, if_neg (by rw [gerar_componentes_simulados_ne_nil]; simp)]
    have hfilter : (componentesDaAnalise sfn f).filter compValido =
        gerar_componentes_simulados sfn := by
      rw [hcomp]
      apply List.filter_eq_self.mpr
      intro c hc
      exact (List.all_eq_true.mp (gerar_componentes_simulados_all sfn)) c hc
    rw [hfilter]
    rw [if_neg (by rw [gerar_componentes_simulados_ne_nil]; simp)]

/-- Witness for the amended C1 at a concrete validated non-obj upload. -/
theorem analise_graceful_witness :
    (pyExtension "movel.stl" ≠ "obj") ∧
    ((validar_arquivo (some ⟨"movel.stl", 5, "x"⟩)).1 = true) ∧
    ((analisar_arquivo "projeto" (some ⟨"movel.stl", 5, "x"⟩)).1 = true) ∧
    ((analisar_arquivo "projeto" (some ⟨"movel.stl", 5, "x"⟩)).2.1 ≠ [] ∧
      ∀ c ∈ (analisar_arquivo "projeto" (some ⟨"movel.stl", 5, "x"⟩)).2.1,
        0 < c.largura ∧ 0 < c.altura ∧ 0 < c.profundidade) := by
  have hext : pyExtension "movel.stl" ≠ "obj" := by decide
  have hval : (validar_arquivo (some ⟨"movel.stl", 5, "x"⟩)).1 = true := by decide
  have hok := analise_graceful_amended.2 "projeto" ⟨"movel.stl", 5, "x"⟩ hext hval
  have hsplit : analisar_arquivo "projeto" (some ⟨"movel.stl", 5, "x"⟩) =
      ((analisar_arquivo "projeto" (some ⟨"movel.stl", 5, "x"⟩)).1,
       (analisar_arquivo "projeto" (some ⟨"movel.stl", 5, "x"⟩)).2.1,
       (analisar_arquivo "projeto" (some ⟨"movel.stl", 5, "x"⟩)).2.2) := rfl
  exact ⟨hext, hval, hok, analise_graceful_amended.1 "projeto" _ _ _ _ hsplit hok⟩

/-! ### Evaluation of the C1 counterexample file

The uploaded file a.obj with content "v 0 0 0\nv 15 0 0" passes validation;
its whole-file bounding box has width extent 15, so the millimeter division
fires and the floored height 0.1 becomes 0.0001, which rounds to 0 at 3
decimals, so the single produced component is dropped by the positivity
filter and the analysis fails. -/

/-- Dimension extraction on the counterexample's two vertices. -/
theorem cex_dims : calcular_dimensoes_vertices [⟨0, 0, 0⟩, ⟨15, 0, 0⟩] = ⟨0.015, 0, 0⟩ := by
  have he : bboxExtents ⟨0, 0, 0⟩ [⟨15, 0, 0⟩] = ⟨15, 0, 0⟩ := by
    simp [bboxExtents, bboxMin, bboxMax]
  simp only [calcular_dimensoes_vertices, he]
  rw [if_pos (by norm_num : (10 : ℚ) < max |(15 : ℚ)| 0.1)]
  have p1 : pyRound (max |(15 : ℚ)| 0.1 / 1000) 3 = 0.015 := by
    rw [show max |(15 : ℚ)| 0.1 / 1000 = 0.015 by norm_num]
    exact pyRound_eq_of_int 0.015 3 15 (by norm_num)
  have p2 : pyRound (max |(0 : ℚ)| 0.1 / 1000) 3 = 0 := by
    rw [show max |(0 : ℚ)| 0.1 / 1000 = 0.0001 by norm_num]
    rw [pyRound_eq_down 0.0001 3 0 (by norm_num) (by norm_num)]
    norm_num
  have p3 : pyRound (max |(0 : ℚ)| 0.02 / 1000) 3 = 0 := by
    rw [show max |(0 : ℚ)| 0.02 / 1000 = 0.00002 by norm_num]
    rw [pyRound_eq_down 0.00002 3 0 (by norm_num) (by norm_num)]
    norm_num
  rw [p1, p2, p3]

/-- Name suggestion on the counterexample file. -/
theorem cex_nome : gerar_nome_por_arquivo "v 0 0 0\nv 15 0 0" = "Prateleira" := by
  have hfind : ((pySplitOn "v 0 0 0\nv 15 0 0" "\n").take 10).findSome? comentarioUtil = none := by
    decide
  have hverts : verticesDasLinhas (pySplitOn "v 0 0 0\nv 15 0 0" "\n") =
      some [⟨0, 0, 0⟩, ⟨15, 0, 0⟩] := by decide
  simp only [gerar_nome_por_arquivo, hfind, hverts]
  rw [if_pos (by decide : ¬ ([(⟨0, 0, 0⟩ : Vertex), ⟨15, 0, 0⟩] : List Vertex).isEmpty = true)]
  rw [cex_dims]
  simp only [sugerir_nome_por_dimensoes]
  rw [if_neg (by norm_num), if_neg (by norm_num), if_neg (by norm_num), if_pos (by norm_num)]

/-- OBJ analysis of the counterexample file: one component with zero height. -/
theorem cex_obj : analisar_arquivo_obj "v 0 0 0\nv 15 0 0" "projeto" =
    [⟨"Prateleira", 0.015, 0, 0, none, some 2, some 0⟩] := by
  have hlines : pySplitOn "v 0 0 0\nv 15 0 0" "\n" = ["v 0 0 0", "v 15 0 0"] := by decide
  have hscan : lerArquivoObj ["v 0 0 0", "v 15 0 0"] =
      some ⟨[⟨0, 0, 0⟩, ⟨15, 0, 0⟩], [], "default"⟩ := by decide
  simp only [analisar_arquivo_obj, hlines, hscan, List.foldl_nil]
  rw [if_pos (by decide)]
  rw [cex_dims, cex_nome]
  rfl

/-- C1 counterexample: the validated file a.obj with content
"v 0 0 0\nv 15 0 0" makes analisar_arquivo return the empty-component
failure (ok = false, no components), contradicting the claimed guarantee. -/
theorem analise_graceful_cex :
    analisar_arquivo "projeto" (some ⟨"a.obj", 10, "v 0 0 0\nv 15 0 0"⟩) =
      (false, [], "Não foi possível extrair componentes válidos do arquivo") ∧
    (validar_arquivo (some ⟨"a.obj", 10, "v 0 0 0\nv 15 0 0"⟩)).1 = true := by
  constructor
  · have hsel : componentesDaAnalise "projeto" ⟨"a.obj", 10, "v 0 0 0\nv 15 0 0"⟩ =
        [⟨"Prateleira", 0.015, 0, 0, none, some 2, some 0⟩] := by
      simp only [componentesDaAnalise]
      rw [if_pos (by decide : pyExtension "a.obj" = "obj")]
      rw [cex_obj]
      rw [if_neg (by simp)]
    simp only [analisar_arquivo]
    rw [if_neg (by decide)]
    rw [hsel]
    have hfil : List.filter compValido [(⟨"Prateleira", 0.015, 0, 0, none, some 2, some 0⟩ :
        Componente)] = [] := by
      apply List.filter_eq_nil_iff.mpr
      intro a ha
      simp only [List.mem_singleton] at ha
      subst ha
      rw [Bool.not_eq_true]
      rw [← Bool.not_eq_true] at *
      intro hcv
      rw [compValido_iff] at hcv
      norm_num at hcv
    rw [hfil]
    rfl
  · decide
